import Mathlib

/-
Formal model of the Sudan Digital Archive MCP server's request-translation
layer, shallowly embedded from src/client.rs, src/model.rs and
src/server.rs. External collaborators (the reqwest HTTP transport and the
serde JSON codec) are represented by explicit data: HTTP status codes are
naturals, bodies are strings, and response-body deserialization is an
optional-valued function passed as a parameter. Rust's i64/i32 values are
modelled as Int (their decimal rendering agrees with Rust's to_string on
the in-range values the client handles), and Vec<(&str, String)> query
vectors as List (String × String).
-/

/-- Supported languages for metadata (enum MetadataLanguage, src/model.rs). -/
inductive MetadataLanguage where
  | None
  | English
  | Arabic
deriving DecidableEq

/-- Supported metadata formats (enum DublinMetadataFormat, src/model.rs). -/
inductive DublinMetadataFormat where
  | Wacz
deriving DecidableEq

/-- Supported browser profiles (enum BrowserProfile, src/model.rs). -/
inductive BrowserProfile where
  | Facebook
deriving DecidableEq

/-- Arguments for listing accessions (struct ListAccessionsArgs,
src/model.rs). Serde defaults: pagination fields default to -1
(default_pagination), strings to "", lists to [], booleans to false,
lang to MetadataLanguage.None. -/
structure ListAccessionsArgs where
  page : Int
  per_page : Int
  lang : MetadataLanguage
  metadata_subjects : List Int
  metadata_subjects_inclusive_filter : Bool
  query_term : String
  url_filter : String
  date_from : String
  date_to : String
  is_private : Bool
deriving DecidableEq

/-- The Default impl for ListAccessionsArgs (src/model.rs). -/
def ListAccessionsArgs.default : ListAccessionsArgs where
  page := -1
  per_page := -1
  lang := MetadataLanguage.None
  metadata_subjects := []
  metadata_subjects_inclusive_filter := false
  query_term := ""
  url_filter := ""
  date_from := ""
  date_to := ""
  is_private := false

/-- Arguments for listing collections (struct ListCollectionsArgs,
src/model.rs). -/
structure ListCollectionsArgs where
  page : Int
  per_page : Int
  lang : MetadataLanguage
deriving DecidableEq

/-- Arguments for listing private collections
(struct ListPrivateCollectionsArgs, src/model.rs). -/
structure ListPrivateCollectionsArgs where
  page : Int
  per_page : Int
  lang : MetadataLanguage
  is_public : Bool
deriving DecidableEq

/-- Request body for updating an accession (struct UpdateAccessionRequest,
src/model.rs). -/
structure UpdateAccessionRequest where
  is_private : Bool
  metadata_description : String
  metadata_language : MetadataLanguage
  metadata_subjects : List Int
  metadata_time : String
  metadata_title : String
deriving DecidableEq

/-- Request body for creating a metadata subject
(struct CreateSubjectRequest, src/model.rs). -/
structure CreateSubjectRequest where
  lang : MetadataLanguage
  metadata_subject : String
deriving DecidableEq

/-- Request body for deleting a metadata subject
(struct DeleteSubjectRequest, src/model.rs). -/
structure DeleteSubjectRequest where
  lang : MetadataLanguage
deriving DecidableEq

/-- Request body for updating a metadata subject
(struct UpdateSubjectRequest, src/model.rs). -/
structure UpdateSubjectRequest where
  lang : MetadataLanguage
  metadata_subject : String
deriving DecidableEq

/-- Request body for creating a new accession crawl
(struct CreateAccessionCrawlRequest, src/model.rs). -/
structure CreateAccessionCrawlRequest where
  url : String
  metadata_language : MetadataLanguage
  metadata_title : String
  metadata_time : String
  metadata_subjects : List Int
  is_private : Bool
  metadata_format : DublinMetadataFormat
  browser_profile : Option BrowserProfile
  metadata_description : Option String
  s3_filename : Option String
deriving DecidableEq

/-- Request body for creating a collection (struct CreateCollectionRequest,
src/model.rs). -/
structure CreateCollectionRequest where
  lang : MetadataLanguage
  title : String
  is_public : Bool
  subject_ids : List Int
  description : String
deriving DecidableEq

/-- Request body for updating a collection (struct UpdateCollectionRequest,
src/model.rs). -/
structure UpdateCollectionRequest where
  lang : MetadataLanguage
  title : String
  is_public : Bool
  subject_ids : List Int
  description : String
deriving DecidableEq

/-- Status of a web crawl (enum CrawlStatus, src/model.rs). -/
inductive CrawlStatus where
  | BadCrawl
  | Complete
  | Error
  | Pending
deriving DecidableEq

/-- Detailed accession information
(struct AccessionsWithMetadataResponse, src/model.rs). -/
structure AccessionsWithMetadataResponse where
  id : Int
  is_private : Bool
  crawl_status : CrawlStatus
  crawl_timestamp : String
  seed_url : String
  dublin_metadata_date : String
  dublin_metadata_format : DublinMetadataFormat
  has_english_metadata : Bool
  has_arabic_metadata : Bool
  description_ar : Option String
  description_en : Option String
  subjects_ar : Option (List String)
  subjects_ar_ids : Option (List Int)
  subjects_en : Option (List String)
  subjects_en_ids : Option (List Int)
  title_ar : Option String
  title_en : Option String
deriving DecidableEq

/-- Response for listing accessions (struct ListAccessionsResponse,
src/model.rs). -/
structure ListAccessionsResponse where
  items : List AccessionsWithMetadataResponse
  num_pages : Int
  page : Int
  per_page : Int
deriving DecidableEq

/-- Client configuration (struct SdaClient, src/client.rs). The reqwest
Client handle carries no observable state of its own and is omitted. -/
structure SdaClient where
  base_url : String
  api_key : String
deriving DecidableEq

/-- Returns the authentication header as a key-value tuple
(SdaClient::auth_header, src/client.rs). -/
def SdaClient.auth_header (c : SdaClient) : String × String :=
  ("x-api-key", c.api_key)

/-- Builds a query vector for accession-related requests
(SdaClient::build_accession_query, src/client.rs lines 61-101). The Rust
function returns Result but never errs; its sequence of `query.push`
calls is rendered as list concatenation in the same order. -/
def build_accession_query (args : ListAccessionsArgs) :
    List (String × String) :=
  (if args.page ≠ -1 then [("page", toString args.page)] else [])
  ++ (if args.per_page ≠ -1 then [("per_page", toString args.per_page)] else [])
  ++ (match args.lang with
      | MetadataLanguage.English => [("lang", "english")]
      | MetadataLanguage.Arabic => [("lang", "arabic")]
      | MetadataLanguage.None => [])
  ++ (if args.metadata_subjects ≠ [] then
        args.metadata_subjects.map (fun s => ("metadata_subjects", toString s))
      else [])
  ++ (if args.metadata_subjects_inclusive_filter then
        [("metadata_subjects_inclusive_filter", "true")]
      else [])
  ++ (if args.query_term ≠ "" then [("query_term", args.query_term)] else [])
  ++ (if args.url_filter ≠ "" then [("url_filter", args.url_filter)] else [])
  ++ (if args.date_from ≠ "" then [("date_from", args.date_from)] else [])
  ++ (if args.date_to ≠ "" then [("date_to", args.date_to)] else [])
  ++ (if args.is_private then [("is_private", "true")] else [])

/-- The query vector built by SdaClient::list_subjects
(src/client.rs lines 257-271): the language parameter is pushed first
(with MetadataLanguage::None falling back to "english"), then the
optional page and per_page. -/
def list_subjects_query (lang : MetadataLanguage)
    (page : Option Int) (per_page : Option Int) : List (String × String) :=
  (match lang with
   | MetadataLanguage.English => [("lang", "english")]
   | MetadataLanguage.Arabic => [("lang", "arabic")]
   | MetadataLanguage.None => [("lang", "english")])
  ++ (match page with
      | some p => [("page", toString p)]
      | none => [])
  ++ (match per_page with
      | some pp => [("per_page", toString pp)]
      | none => [])

/-- The query vector built by SdaClient::get_subject
(src/client.rs lines 360-366). -/
def get_subject_query (lang : MetadataLanguage) : List (String × String) :=
  match lang with
  | MetadataLanguage.English => [("lang", "english")]
  | MetadataLanguage.Arabic => [("lang", "arabic")]
  | MetadataLanguage.None => []

/-- The query vector built by SdaClient::list_collections
(src/client.rs lines 395-407). -/
def list_collections_query (args : ListCollectionsArgs) :
    List (String × String) :=
  (if args.page ≠ -1 then [("page", toString args.page)] else [])
  ++ (if args.per_page ≠ -1 then [("per_page", toString args.per_page)] else [])
  ++ (match args.lang with
      | MetadataLanguage.English => [("lang", "english")]
      | MetadataLanguage.Arabic => [("lang", "arabic")]
      | MetadataLanguage.None => [])

/-- The query vector built by SdaClient::list_private_collections
(src/client.rs lines 433-446); is_public is always pushed, rendered with
Rust's bool to_string ("true"/"false"). -/
def list_private_collections_query (args : ListPrivateCollectionsArgs) :
    List (String × String) :=
  (if args.page ≠ -1 then [("page", toString args.page)] else [])
  ++ (if args.per_page ≠ -1 then [("per_page", toString args.per_page)] else [])
  ++ (match args.lang with
      | MetadataLanguage.English => [("lang", "english")]
      | MetadataLanguage.Arabic => [("lang", "arabic")]
      | MetadataLanguage.None => [])
  ++ [("is_public", toString args.is_public)]

/-- The query vector built by SdaClient::get_collection
(src/client.rs lines 476-482). -/
def get_collection_query (lang : MetadataLanguage) : List (String × String) :=
  match lang with
  | MetadataLanguage.English => [("lang", "english")]
  | MetadataLanguage.Arabic => [("lang", "arabic")]
  | MetadataLanguage.None => []

/-- HTTP methods used by the client. -/
inductive Method where
  | GET
  | POST
  | PUT
  | DELETE
deriving DecidableEq

/-- An outgoing HTTP request as assembled by the client methods in
src/client.rs: method, full URL, the single authentication header
attached via `.header(self.auth_header().0, self.auth_header().1)`, and
the query vector passed to `.query(&query)` (empty when the method adds
none). JSON request bodies are serialized by serde, an external
collaborator, and are not part of the embedded fragment. -/
structure HttpRequest where
  method : Method
  url : String
  header : String × String
  query : List (String × String)
deriving DecidableEq

/-- One invocation of a client operation, with its typed arguments
(the public methods of SdaClient, src/client.rs). -/
inductive Operation where
  | listAccessions (args : ListAccessionsArgs)
  | listPrivateAccessions (args : ListAccessionsArgs)
  | getAccession (id : Int)
  | getPrivateAccession (id : Int)
  | updateAccession (id : Int) (request : UpdateAccessionRequest)
  | createAccessionCrawl (request : CreateAccessionCrawlRequest)
  | listSubjects (lang : MetadataLanguage) (page : Option Int)
      (per_page : Option Int)
  | createSubject (request : CreateSubjectRequest)
  | deleteSubject (id : Int) (request : DeleteSubjectRequest)
  | updateSubject (id : Int) (request : UpdateSubjectRequest)
  | getSubject (id : Int) (lang : MetadataLanguage)
  | listCollections (args : ListCollectionsArgs)
  | listPrivateCollections (args : ListPrivateCollectionsArgs)
  | getCollection (id : Int) (lang : MetadataLanguage)
  | createCollection (request : CreateCollectionRequest)
  | updateCollection (id : Int) (request : UpdateCollectionRequest)

/-- The HTTP request each client method sends, assembled exactly as in
src/client.rs: the URL from the format! call, the method from the
reqwest builder used (get/post/put/delete), the auth header, and the
query vector (empty for methods that call `.query` with no vector). -/
def request_of (c : SdaClient) : Operation → HttpRequest
  | Operation.listAccessions args =>
      { method := Method.GET
        url := c.base_url ++ "/api/v1/accessions"
        header := c.auth_header
        query := build_accession_query args }
  | Operation.listPrivateAccessions args =>
      { method := Method.GET
        url := c.base_url ++ "/api/v1/accessions/private"
        header := c.auth_header
        query := build_accession_query args }
  | Operation.getAccession id =>
      { method := Method.GET
        url := c.base_url ++ "/api/v1/accessions/" ++ toString id
        header := c.auth_header
        query := [] }
  | Operation.getPrivateAccession id =>
      { method := Method.GET
        url := c.base_url ++ "/api/v1/accessions/private/" ++ toString id
        header := c.auth_header
        query := [] }
  | Operation.updateAccession id _ =>
      { method := Method.PUT
        url := c.base_url ++ "/api/v1/accessions/" ++ toString id
        header := c.auth_header
        query := [] }
  | Operation.createAccessionCrawl _ =>
      { method := Method.POST
        url := c.base_url ++ "/api/v1/accessions/crawl"
        header := c.auth_header
        query := [] }
  | Operation.listSubjects lang page per_page =>
      { method := Method.GET
        url := c.base_url ++ "/api/v1/metadata-subjects"
        header := c.auth_header
        query := list_subjects_query lang page per_page }
  | Operation.createSubject _ =>
      { method := Method.POST
        url := c.base_url ++ "/api/v1/metadata-subjects"
        header := c.auth_header
        query := [] }
  | Operation.deleteSubject id _ =>
      { method := Method.DELETE
        url := c.base_url ++ "/api/v1/metadata-subjects/" ++ toString id
        header := c.auth_header
        query := [] }
  | Operation.updateSubject id _ =>
      { method := Method.PUT
        url := c.base_url ++ "/api/v1/metadata-subjects/" ++ toString id
        header := c.auth_header
        query := [] }
  | Operation.getSubject id lang =>
      { method := Method.GET
        url := c.base_url ++ "/api/v1/metadata-subjects/" ++ toString id
        header := c.auth_header
        query := get_subject_query lang }
  | Operation.listCollections args =>
      { method := Method.GET
        url := c.base_url ++ "/api/v1/collections"
        header := c.auth_header
        query := list_collections_query args }
  | Operation.listPrivateCollections args =>
      { method := Method.GET
        url := c.base_url ++ "/api/v1/collections/private"
        header := c.auth_header
        query := list_private_collections_query args }
  | Operation.getCollection id lang =>
      { method := Method.GET
        url := c.base_url ++ "/api/v1/collections/" ++ toString id
        header := c.auth_header
        query := get_collection_query lang }
  | Operation.createCollection _ =>
      { method := Method.POST
        url := c.base_url ++ "/api/v1/collections"
        header := c.auth_header
        query := [] }
  | Operation.updateCollection id _ =>
      { method := Method.PUT
        url := c.base_url ++ "/api/v1/collections/" ++ toString id
        header := c.auth_header
        query := [] }

/-- The operation names, one per public client method (src/client.rs). -/
inductive OpName where
  | listAccessions
  | listPrivateAccessions
  | getAccession
  | getPrivateAccession
  | updateAccession
  | createAccessionCrawl
  | listSubjects
  | createSubject
  | deleteSubject
  | updateSubject
  | getSubject
  | listCollections
  | listPrivateCollections
  | getCollection
  | createCollection
  | updateCollection
deriving DecidableEq, Fintype

/-- How each client method consumes a successful response body
(src/client.rs): jsonParsed for methods ending in `response.json()`,
bareText for methods ending in `response.text()` (create_accession_crawl
lines 122-125, create_subject lines 306-309, create_collection lines
523-526), and noBody for delete_subject (lines 313-326), which returns
Ok(()) without reading the body. -/
inductive ResultShape where
  | jsonParsed
  | bareText
  | noBody
deriving DecidableEq

/-- The result shape of each operation, read off the terminal call of the
corresponding method in src/client.rs. -/
def result_shape : OpName → ResultShape
  | OpName.listAccessions => ResultShape.jsonParsed
  | OpName.listPrivateAccessions => ResultShape.jsonParsed
  | OpName.getAccession => ResultShape.jsonParsed
  | OpName.getPrivateAccession => ResultShape.jsonParsed
  | OpName.updateAccession => ResultShape.jsonParsed
  | OpName.createAccessionCrawl => ResultShape.bareText
  | OpName.listSubjects => ResultShape.jsonParsed
  | OpName.createSubject => ResultShape.bareText
  | OpName.deleteSubject => ResultShape.noBody
  | OpName.updateSubject => ResultShape.jsonParsed
  | OpName.getSubject => ResultShape.jsonParsed
  | OpName.listCollections => ResultShape.jsonParsed
  | OpName.listPrivateCollections => ResultShape.jsonParsed
  | OpName.getCollection => ResultShape.jsonParsed
  | OpName.createCollection => ResultShape.bareText
  | OpName.updateCollection => ResultShape.jsonParsed

/-- A raw HTTP response: numeric status code and body text. The reqwest
StatusCode is modelled by its numeric code; its textual rendering in
error messages is the decimal numeral of that code. -/
structure HttpResponse where
  status : Nat
  body : String
deriving DecidableEq

/-- StatusCode::is_success (the 2xx range), as tested by
`response.status().is_success()` in SdaClient::handle_response. -/
def is_success (status : Nat) : Bool :=
  200 ≤ status && status ≤ 299

/-- SdaClient::handle_response (src/client.rs lines 40-58): on a
non-success status build an error message from the context, the status
and the (non-empty) body; on success pass the response through. Reading
the body is modelled as always succeeding (the unwrap_or_else fallback
for an unreadable body never fires in the model). -/
def handle_response (resp : HttpResponse) (context : String) :
    Except String HttpResponse :=
  if !(is_success resp.status) then
    let msg :=
      if resp.body = "" then
        context ++ ": HTTP " ++ toString resp.status
      else
        context ++ ": HTTP " ++ toString resp.status ++ " - " ++ resp.body
    Except.error msg
  else
    Except.ok resp

/-- The `response.json().await.context(ctx)` step shared by the
json-parsing client methods: serde deserialization is the external
parameter `parse`; when it fails the method returns the context error,
never a default value. -/
def parse_or_error {α : Type} (parse : String → Option α)
    (resp : HttpResponse) (ctx : String) : Except String α :=
  match parse resp.body with
  | some v => Except.ok v
  | none => Except.error ctx

/-- The response-translation pipeline of SdaClient::list_accessions
(src/client.rs lines 145-151): handle_response, then JSON parsing with
the method's context strings. -/
def list_accessions_result (parse : String → Option ListAccessionsResponse)
    (resp : HttpResponse) : Except String ListAccessionsResponse :=
  match handle_response resp "Server returned error for list accessions" with
  | Except.error e => Except.error e
  | Except.ok r =>
      parse_or_error parse r "Failed to parse list accessions response"

/-- Modelled from the spec: the pruned Argument Set produced by the
Argument Normalizer (spec section 4.1) for the list-accessions argument
set. The source fuses normalization into build_accession_query, so the
pruned form is modelled explicitly: a field that should not be
serialized is absent (none). -/
structure NormalizedAccessionArgs where
  page : Option Int
  per_page : Option Int
  lang : Option MetadataLanguage
  metadata_subjects : Option (List Int)
  metadata_subjects_inclusive_filter : Option Bool
  query_term : Option String
  url_filter : Option String
  date_from : Option String
  date_to : Option String
  is_private : Option Bool
deriving DecidableEq

/-- Modelled from the spec: the Argument Normalizer (spec section 4.1),
applied to the list-accessions argument set. Pagination fields are kept
only when they differ from the -1 sentinel, the unspecified language
variant is dropped, strings are kept only when non-empty, booleans only
when true, lists only when non-empty. -/
def spec_normalize (args : ListAccessionsArgs) : NormalizedAccessionArgs where
  page := if args.page = -1 then none else some args.page
  per_page := if args.per_page = -1 then none else some args.per_page
  lang := match args.lang with
    | MetadataLanguage.None => none
    | l => some l
  metadata_subjects :=
    if args.metadata_subjects = [] then none else some args.metadata_subjects
  metadata_subjects_inclusive_filter :=
    if args.metadata_subjects_inclusive_filter then some true else none
  query_term := if args.query_term = "" then none else some args.query_term
  url_filter := if args.url_filter = "" then none else some args.url_filter
  date_from := if args.date_from = "" then none else some args.date_from
  date_to := if args.date_to = "" then none else some args.date_to
  is_private := if args.is_private then some true else none

/-- Modelled from the spec: re-injects a pruned Argument Set into the
sentinel representation consumed by build_accession_query, an absent
field becoming its serde default (spec sections 3 and 4.1): -1 for
pagination, the unspecified language, "", [], false. -/
def spec_denormalize (n : NormalizedAccessionArgs) : ListAccessionsArgs where
  page := n.page.getD (-1)
  per_page := n.per_page.getD (-1)
  lang := n.lang.getD MetadataLanguage.None
  metadata_subjects := n.metadata_subjects.getD []
  metadata_subjects_inclusive_filter :=
    n.metadata_subjects_inclusive_filter.getD false
  query_term := n.query_term.getD ""
  url_filter := n.url_filter.getD ""
  date_from := n.date_from.getD ""
  date_to := n.date_to.getD ""
  is_private := n.is_private.getD false

/-- A list-accessions argument set already in normal form, in the words
of the idempotence property: no field equal to its unset sentinel, no
empty optional string, no empty list, no unspecified optional enum. -/
def IsNormalizedArgs (args : ListAccessionsArgs) : Prop :=
  args.page ≠ -1 ∧ args.per_page ≠ -1 ∧ args.lang ≠ MetadataLanguage.None ∧
  args.metadata_subjects ≠ [] ∧ args.query_term ≠ "" ∧
  args.url_filter ≠ "" ∧ args.date_from ≠ "" ∧ args.date_to ≠ ""

instance (args : ListAccessionsArgs) : Decidable (IsNormalizedArgs args) := by
  unfold IsNormalizedArgs
  infer_instance

/-- The sub-sequence of query parameters with the given name. -/
def params_named (name : String) (q : List (String × String)) :
    List (String × String) :=
  q.filter (fun p => p.1 == name)

theorem params_named_append (name : String) (q r : List (String × String)) :
    params_named name (q ++ r) = params_named name q ++ params_named name r :=
  List.filter_append q r

/-- The default argument set with concrete pagination (page 2, 25 items
per page), as in the pagination unit test of src/client.rs. -/
def sampleArgs : ListAccessionsArgs :=
  { ListAccessionsArgs.default with page := 2, per_page := 25 }

/-- The default argument set with an Arabic language filter, as in the
language-filter unit test of src/client.rs. -/
def arabicArgs : ListAccessionsArgs :=
  { ListAccessionsArgs.default with lang := MetadataLanguage.Arabic }

/-- A fully concrete argument set with every optional field carrying a
non-sentinel value. -/
def normalizedSampleArgs : ListAccessionsArgs where
  page := 1
  per_page := 10
  lang := MetadataLanguage.Arabic
  metadata_subjects := [3, 5]
  metadata_subjects_inclusive_filter := true
  query_term := "taxes"
  url_filter := "example.org"
  date_from := "2024-01-01"
  date_to := "2024-02-01"
  is_private := true

theorem filter_subjects_map (name : String)
    (h : ("metadata_subjects" == name) = false) (l : List Int) :
    List.filter (fun p => p.1 == name)
      (l.map fun s => ("metadata_subjects", toString s)) = [] := by
  induction l with
  | nil => rfl
  | cons a t ih => simp [List.filter_cons, h, ih]

theorem params_named_page_build (args : ListAccessionsArgs) :
    params_named "page" (build_accession_query args) =
      (if args.page ≠ -1 then [("page", toString args.page)] else []) := by
  unfold build_accession_query params_named
  cases args.lang <;>
    simp only [List.filter_append, filter_subjects_map "page" (by decide),
      apply_ite (List.filter fun p : String × String => p.1 == "page")] <;>
    simp

theorem params_named_per_page_build (args : ListAccessionsArgs) :
    params_named "per_page" (build_accession_query args) =
      (if args.per_page ≠ -1 then [("per_page", toString args.per_page)]
       else []) := by
  unfold build_accession_query params_named
  cases args.lang <;>
    simp only [List.filter_append, filter_subjects_map "per_page" (by decide),
      apply_ite (List.filter fun p : String × String => p.1 == "per_page")] <;>
    simp

theorem params_named_lang_build (args : ListAccessionsArgs) :
    params_named "lang" (build_accession_query args) =
      (match args.lang with
       | MetadataLanguage.English => [("lang", "english")]
       | MetadataLanguage.Arabic => [("lang", "arabic")]
       | MetadataLanguage.None => []) := by
  unfold build_accession_query params_named
  cases args.lang <;>
    simp only [List.filter_append, filter_subjects_map "lang" (by decide),
      apply_ite (List.filter fun p : String × String => p.1 == "lang")] <;>
    simp

theorem build_pagination_cons (args : ListAccessionsArgs)
    (h1 : args.page ≠ -1) (h2 : args.per_page ≠ -1) :
    ∃ rest, build_accession_query args =
      ("page", toString args.page) ::
        ("per_page", toString args.per_page) :: rest := by
  unfold build_accession_query
  rw [if_pos h1, if_pos h2]
  exact ⟨_, rfl⟩

theorem spec_denormalize_spec_normalize (args : ListAccessionsArgs) :
    spec_denormalize (spec_normalize args) = args := by
  cases args with
  | mk page per_page lang subs incl qt uf df dt ip =>
    cases lang <;> cases incl <;> cases ip <;>
      simp only [spec_normalize, spec_denormalize,
        ListAccessionsArgs.mk.injEq] <;>
      refine ⟨?_, ?_, ?_, ?_, ?_, ?_, ?_, ?_, ?_, ?_⟩ <;>
      (try rfl) <;> (split <;> simp_all)

theorem params_named_lang_list_collections (args : ListCollectionsArgs) :
    params_named "lang" (list_collections_query args) =
      (match args.lang with
       | MetadataLanguage.English => [("lang", "english")]
       | MetadataLanguage.Arabic => [("lang", "arabic")]
       | MetadataLanguage.None => []) := by
  unfold list_collections_query params_named
  cases args.lang <;>
    simp only [List.filter_append,
      apply_ite (List.filter fun p : String × String => p.1 == "lang")] <;>
    simp

theorem params_named_lang_list_private_collections
    (args : ListPrivateCollectionsArgs) :
    params_named "lang" (list_private_collections_query args) =
      (match args.lang with
       | MetadataLanguage.English => [("lang", "english")]
       | MetadataLanguage.Arabic => [("lang", "arabic")]
       | MetadataLanguage.None => []) := by
  unfold list_private_collections_query params_named
  cases args.lang <;>
    simp only [List.filter_append,
      apply_ite (List.filter fun p : String × String => p.1 == "lang")] <;>
    simp

theorem toList_append (a b : String) :
    (a ++ b).toList = a.toList ++ b.toList :=
  String.data_append a b

/-- Claim C1: with both pagination fields at the -1 sentinel the built
accession query contains neither a "page" nor a "per_page" parameter;
with both concrete, the query contains the pair ("page", page) and,
after it, the pair ("per_page", per_page), the page parameter preceding
the per_page parameter. -/
theorem C1_pagination_query :
    (∀ args : ListAccessionsArgs, args.page = -1 → args.per_page = -1 →
      params_named "page" (build_accession_query args) = [] ∧
      params_named "per_page" (build_accession_query args) = []) ∧
    (∀ args : ListAccessionsArgs, args.page ≠ -1 → args.per_page ≠ -1 →
      ∃ l₁ l₂ l₃, build_accession_query args =
        l₁ ++ ("page", toString args.page) ::
          (l₂ ++ ("per_page", toString args.per_page) :: l₃)) := by
  constructor
  · intro args h1 h2
    constructor
    · rw [params_named_page_build]
      simp [h1]
    · rw [params_named_per_page_build]
      simp [h2]
  · intro args h1 h2
    obtain ⟨rest, hrest⟩ := build_pagination_cons args h1 h2
    exact ⟨[], [], rest, by rw [hrest]; rfl⟩

/-- Witness for C1 at the concrete inputs of the spec: the default
argument set (both fields -1) yields no pagination parameters; page 2
and per_page 25 yield the two pairs in order. -/
theorem C1_pagination_query_witness :
    (params_named "page" (build_accession_query ListAccessionsArgs.default)
        = [] ∧
     params_named "per_page"
        (build_accession_query ListAccessionsArgs.default) = []) ∧
    (∃ l₁ l₂ l₃, build_accession_query sampleArgs =
        l₁ ++ ("page", toString sampleArgs.page) ::
          (l₂ ++ ("per_page", toString sampleArgs.per_page) :: l₃)) :=
  ⟨C1_pagination_query.1 ListAccessionsArgs.default rfl rfl,
   C1_pagination_query.2 sampleArgs (by decide) (by decide)⟩

/-- Claim C2: language filters across every operation that builds a
query with a language filter. With Arabic the query carries exactly one
("lang", "arabic") pair; with the unspecified variant the
optional-language operations (list accessions and list private
accessions via build_accession_query, list collections, list private
collections, get subject, get collection) emit no lang pair, while list
subjects, whose contract requires a language, falls back to the default
("lang", "english"). -/
theorem C2_lang_policy :
    (∀ args : ListAccessionsArgs, args.lang = MetadataLanguage.Arabic →
      params_named "lang" (build_accession_query args)
        = [("lang", "arabic")]) ∧
    (∀ args : ListAccessionsArgs, args.lang = MetadataLanguage.None →
      params_named "lang" (build_accession_query args) = []) ∧
    (∀ args : ListCollectionsArgs, args.lang = MetadataLanguage.Arabic →
      params_named "lang" (list_collections_query args)
        = [("lang", "arabic")]) ∧
    (∀ args : ListCollectionsArgs, args.lang = MetadataLanguage.None →
      params_named "lang" (list_collections_query args) = []) ∧
    (∀ args : ListPrivateCollectionsArgs,
      args.lang = MetadataLanguage.Arabic →
      params_named "lang" (list_private_collections_query args)
        = [("lang", "arabic")]) ∧
    (∀ args : ListPrivateCollectionsArgs,
      args.lang = MetadataLanguage.None →
      params_named "lang" (list_private_collections_query args) = []) ∧
    params_named "lang" (get_subject_query MetadataLanguage.Arabic)
      = [("lang", "arabic")] ∧
    params_named "lang" (get_subject_query MetadataLanguage.None) = [] ∧
    params_named "lang" (get_collection_query MetadataLanguage.Arabic)
      = [("lang", "arabic")] ∧
    params_named "lang" (get_collection_query MetadataLanguage.None) = [] ∧
    (∀ page per_page,
      params_named "lang"
        (list_subjects_query MetadataLanguage.Arabic page per_page)
        = [("lang", "arabic")]) ∧
    (∀ page per_page,
      params_named "lang"
        (list_subjects_query MetadataLanguage.None page per_page)
        = [("lang", "english")]) := by
  refine ⟨?_, ?_, ?_, ?_, ?_, ?_, by decide, by decide, by decide,
    by decide, ?_, ?_⟩
  · intro args h
    rw [params_named_lang_build, h]
  · intro args h
    rw [params_named_lang_build, h]
  · intro args h
    rw [params_named_lang_list_collections, h]
  · intro args h
    rw [params_named_lang_list_collections, h]
  · intro args h
    rw [params_named_lang_list_private_collections, h]
  · intro args h
    rw [params_named_lang_list_private_collections, h]
  · intro page per_page
    cases page <;> cases per_page <;>
      simp [list_subjects_query, params_named]
  · intro page per_page
    cases page <;> cases per_page <;>
      simp [list_subjects_query, params_named]

/-- Witness for C2 at concrete inputs: an Arabic accession listing emits
exactly one ("lang", "arabic") pair, the default (unspecified) one emits
none, an Arabic private-collections listing emits exactly one
("lang", "arabic") pair, an unspecified one emits none, and an
unspecified-language subject listing falls back to
("lang", "english"). -/
theorem C2_lang_policy_witness :
    params_named "lang" (build_accession_query arabicArgs)
      = [("lang", "arabic")] ∧
    params_named "lang" (build_accession_query ListAccessionsArgs.default)
      = [] ∧
    params_named "lang"
      (list_private_collections_query
        (ListPrivateCollectionsArgs.mk (-1) (-1)
          MetadataLanguage.Arabic false))
      = [("lang", "arabic")] ∧
    params_named "lang"
      (list_private_collections_query
        (ListPrivateCollectionsArgs.mk (-1) (-1)
          MetadataLanguage.None false)) = [] ∧
    params_named "lang"
      (list_subjects_query MetadataLanguage.None none none)
      = [("lang", "english")] :=
  ⟨C2_lang_policy.1 arabicArgs rfl,
   C2_lang_policy.2.1 ListAccessionsArgs.default rfl,
   C2_lang_policy.2.2.2.2.1
     (ListPrivateCollectionsArgs.mk (-1) (-1)
       MetadataLanguage.Arabic false) rfl,
   C2_lang_policy.2.2.2.2.2.1
     (ListPrivateCollectionsArgs.mk (-1) (-1)
       MetadataLanguage.None false) rfl,
   C2_lang_policy.2.2.2.2.2.2.2.2.2.2.2 none none⟩

/-- Claim C3: for every non-success response, handle_response fails with
a message that, when the body is non-empty, contains both the numeric
status and the body text verbatim, and that, when the body is empty,
consists of the context and the status code only. -/
theorem C3_error_message (resp : HttpResponse) (ctx : String)
    (h : is_success resp.status = false) :
    ∃ msg, handle_response resp ctx = Except.error msg ∧
      (resp.body ≠ "" →
        (toString resp.status).toList <:+: msg.toList ∧
        resp.body.toList <:+: msg.toList) ∧
      (resp.body = "" →
        msg = ctx ++ ": HTTP " ++ toString resp.status) := by
  by_cases hb : resp.body = ""
  · refine ⟨ctx ++ ": HTTP " ++ toString resp.status, ?_, ?_, ?_⟩
    · simp [handle_response, h, hb]
    · intro hne
      exact absurd hb hne
    · intro _
      rfl
  · refine ⟨ctx ++ ": HTTP " ++ toString resp.status ++ " - " ++ resp.body,
      ?_, ?_, ?_⟩
    · simp [handle_response, h, hb]
    · intro _
      constructor
      · refine ⟨(ctx ++ ": HTTP ").toList, (" - " ++ resp.body).toList, ?_⟩
        simp [toList_append]
      · refine ⟨(ctx ++ ": HTTP " ++ toString resp.status ++ " - ").toList,
          [], ?_⟩
        simp [toList_append]
    · intro he
      exact absurd he hb

/-- Witness for C3 at the spec's concrete input: a 404 response with body
"Not found" yields an error whose message contains "404" and
"Not found", and an empty-bodied 500 yields the context-and-status
message only. -/
theorem C3_error_message_witness :
    (∃ msg, handle_response (HttpResponse.mk 404 "Not found") "ctx"
        = Except.error msg ∧
      ((HttpResponse.mk 404 "Not found").body ≠ "" →
        (toString (HttpResponse.mk 404 "Not found").status).toList <:+:
          msg.toList ∧
        (HttpResponse.mk 404 "Not found").body.toList <:+: msg.toList) ∧
      ((HttpResponse.mk 404 "Not found").body = "" →
        msg = "ctx" ++ ": HTTP " ++
          toString (HttpResponse.mk 404 "Not found").status)) ∧
    (∃ msg, handle_response (HttpResponse.mk 500 "") "ctx"
        = Except.error msg ∧
      ((HttpResponse.mk 500 "").body ≠ "" →
        (toString (HttpResponse.mk 500 "").status).toList <:+: msg.toList ∧
        (HttpResponse.mk 500 "").body.toList <:+: msg.toList) ∧
      ((HttpResponse.mk 500 "").body = "" →
        msg = "ctx" ++ ": HTTP " ++
          toString (HttpResponse.mk 500 "").status)) :=
  ⟨C3_error_message (HttpResponse.mk 404 "Not found") "ctx" (by decide),
   C3_error_message (HttpResponse.mk 500 "") "ctx" (by decide)⟩

/-- Claim C4: a success-status response whose body the parser rejects
makes list_accessions return the parse-failure error, never a default
or empty result object. -/
theorem C4_parse_failure (parse : String → Option ListAccessionsResponse)
    (resp : HttpResponse) (hs : is_success resp.status = true)
    (hp : parse resp.body = none) :
    list_accessions_result parse resp =
      Except.error "Failed to parse list accessions response" := by
  unfold list_accessions_result handle_response
  rw [hs]
  simp [parse_or_error, hp]

/-- Witness for C4: a 200 response with a body the parser rejects yields
the parse-failure error. -/
theorem C4_parse_failure_witness :
    list_accessions_result (fun _ => none) (HttpResponse.mk 200 "oops") =
      Except.error "Failed to parse list accessions response" :=
  C4_parse_failure (fun _ => none) (HttpResponse.mk 200 "oops")
    (by decide) rfl

/-- Counterexample to claim C5: at lang = English, page = 2,
per_page = 25, the list-subjects query is emitted with the lang
parameter first, not in the table's page, per_page, lang order. -/
theorem C5_counterexample :
    list_subjects_query MetadataLanguage.English (some 2) (some 25) =
      [("lang", "english"), ("page", "2"), ("per_page", "25")] ∧
    list_subjects_query MetadataLanguage.English (some 2) (some 25) ≠
      [("page", "2"), ("per_page", "25"), ("lang", "english")] := by
  constructor
  · decide
  · decide

/-- Claim C5 as amended: the list-subjects query parameters are emitted
in the fixed order lang, then page, then per_page — the sequence equals
its lang entries followed by its page entries followed by its per_page
entries. -/
theorem C5_subjects_query_order (lang : MetadataLanguage)
    (page per_page : Option Int) :
    list_subjects_query lang page per_page =
      params_named "lang" (list_subjects_query lang page per_page) ++
      params_named "page" (list_subjects_query lang page per_page) ++
      params_named "per_page" (list_subjects_query lang page per_page) := by
  cases lang <;> cases page <;> cases per_page <;>
    simp [list_subjects_query, params_named]

/-- Claim C6: listing accessions with the default (all-unset) argument
set produces a GET to base_url ++ "/api/v1/accessions" with an empty
query vector (and the auth header). -/
theorem C6_list_accessions_default_request (c : SdaClient) :
    request_of c (Operation.listAccessions ListAccessionsArgs.default) =
      { method := Method.GET
        url := c.base_url ++ "/api/v1/accessions"
        header := ("x-api-key", c.api_key)
        query := [] } := by
  have hq : build_accession_query ListAccessionsArgs.default = [] := by
    decide
  simp [request_of, SdaClient.auth_header, hq]

/-- Counterexample to claim C7: create_accession_crawl also returns the
response body as bare text, so subject-create and collection-create are
not the only bare-string operations. -/
theorem C7_counterexample :
    ¬ (∀ op : OpName, result_shape op = ResultShape.bareText ↔
        (op = OpName.createSubject ∨ op = OpName.createCollection)) := by
  decide

/-- Claim C7 as amended: the bare-text operations are exactly the three
create operations (accession crawl, subject, collection); delete subject
returns no parsed body; every other operation parses its body as the
declared JSON result shape. -/
theorem C7_result_shapes (op : OpName) :
    result_shape op =
      (if op = OpName.createAccessionCrawl ∨ op = OpName.createSubject ∨
          op = OpName.createCollection then ResultShape.bareText
       else if op = OpName.deleteSubject then ResultShape.noBody
       else ResultShape.jsonParsed) := by
  cases op <;> rfl

/-- Claim C8: every HTTP request issued by any client operation carries
the static authentication header ("x-api-key", api_key). -/
theorem C8_auth_header_on_every_request (c : SdaClient) (op : Operation) :
    (request_of c op).header = ("x-api-key", c.api_key) := by
  cases op <;> rfl

/-- Claim C9: normalization is idempotent. For an already-normalized
argument set, re-normalizing (pruning, then re-injecting the pruned set
and pruning again) changes nothing, and the accession query built from
the re-normalized set equals the one built from the set itself. -/
theorem C9_normalization_idempotent (args : ListAccessionsArgs)
    (h : IsNormalizedArgs args) :
    spec_normalize (spec_denormalize (spec_normalize args)) =
      spec_normalize args ∧
    build_accession_query (spec_denormalize (spec_normalize args)) =
      build_accession_query args := by
  rw [spec_denormalize_spec_normalize]
  exact ⟨rfl, rfl⟩

/-- Witness for C9 at a concrete fully-populated argument set. -/
theorem C9_normalization_idempotent_witness :
    IsNormalizedArgs normalizedSampleArgs ∧
    (spec_normalize (spec_denormalize (spec_normalize normalizedSampleArgs))
        = spec_normalize normalizedSampleArgs ∧
     build_accession_query
        (spec_denormalize (spec_normalize normalizedSampleArgs))
        = build_accession_query normalizedSampleArgs) :=
  ⟨by decide, C9_normalization_idempotent normalizedSampleArgs (by decide)⟩

/-- Claim C10: exactly the value -1 acts as the pagination unset
sentinel. The page parameters of the built accession query are empty
when the field is -1 and are the single pair carrying the field's
decimal rendering for every other value (including 0 and -2), and
likewise for per_page. -/
theorem C10_sentinel_exactness (args : ListAccessionsArgs) :
    params_named "page" (build_accession_query args) =
      (if args.page = -1 then [] else [("page", toString args.page)]) ∧
    params_named "per_page" (build_accession_query args) =
      (if args.per_page = -1 then []
       else [("per_page", toString args.per_page)]) := by
  constructor
  · rw [params_named_page_build]
    by_cases h : args.page = -1 <;> simp [h]
  · rw [params_named_per_page_build]
    by_cases h : args.per_page = -1 <;> simp [h]
